import Mathlib

/-!
Verification of the image-generation pipeline of the visual-menu-ai
repository.

The development shallowly embeds the Python sources:

* `src/src/imaging.py` — per-item generation (`generate_image_async`),
  whole-batch generation (`generate_images_for_menu`), image fetching
  (`fetch_image_bytes`);
* `src/app.py` — item validation (`validate_menu_items`) and the menu
  processing flow (`process_menu`);
* `src/src/vision.py` — menu extraction (`clean_json_response`,
  `extract_menu_items_from_image`, `extract_menu_items_from_text`).

External services (Replicate / aiohttp / Gemini) are modelled as explicit
behaviour parameters: a behaviour assigns to every request the outcome the
service produces (a value, a falsy result, or a raised exception).  Python
exceptions are modelled with `Except`, mirroring the `try/except` structure
of the source; Python `None`-results are modelled with `Option`.  External
calls (network requests) are instrumented: each embedded function also
returns the list of external calls it performed.
-/

/-- Python `str.strip()`: remove leading and trailing whitespace.
Implemented on the character list so that the kernel can evaluate it. -/
def pyStrip (s : String) : String :=
  String.mk (((s.data.dropWhile Char.isWhitespace).reverse.dropWhile Char.isWhitespace).reverse)

/-- Auxiliary for `pyStartsWith` / `pyEndsWith`: the first list is an initial
segment of the second. -/
def charsStartWith : List Char → List Char → Bool
  | [], _ => true
  | _ :: _, [] => false
  | a :: as, b :: bs => a == b && charsStartWith as bs

/-- Python `s.startswith(p)`. -/
def pyStartsWith (s p : String) : Bool := charsStartWith p.data s.data

/-- Python `s.endswith(p)`. -/
def pyEndsWith (s p : String) : Bool := charsStartWith p.data.reverse s.data.reverse

/-- Python `s[n:]` (drop the first `n` characters). -/
def pyDrop (s : String) (n : Nat) : String := String.mk (s.data.drop n)

/-- Python `s[:-n]` (drop the last `n` characters). -/
def pyDropRight (s : String) (n : Nat) : String := String.mk ((s.data.reverse.drop n).reverse)

/-- Python truthiness of an optional string: `None` and `""` are falsy
(`if not api_token`, `if not prompt`, `if output`). -/
def truthyStr : Option String → Bool
  | none => false
  | some s => s != ""

/-- A menu-item record as produced by the extractor and consumed by
`imaging.py` / `app.py`.  The source passes Python dictionaries around;
`none` models an absent key, so `item.get(k, '')` becomes `(field).getD ""`.
The modelled keys are exactly the ones the embedded code reads. -/
structure MenuItem where
  name : Option String
  description : Option String
  price : Option String
  ingredients : Option (List String)
  tags : Option (List String)
  prompt : Option String
deriving Repr, DecidableEq

/-- A successful generation result: `result = menu_item.copy()` followed by
`result['image_bytes'] = image_bytes` and `result['image_url'] = output`
(`imaging.py:67-69`).  `base` is the copied input item; the two extra fields
are the only additions. -/
structure GeneratedItem where
  base : MenuItem
  image_bytes : List Nat
  image_url : String
deriving Repr, DecidableEq

/-- Environment seen by `imaging.py`: `os.getenv('REPLICATE_API_TOKEN')`. -/
structure ImagingEnv where
  replicate_api_token : Option String
deriving Repr, DecidableEq

/-- Outcome of one `replicate.run("google/imagen-4", ...)` call: either it
returns a value (`none` models a falsy output, `some url` a URL string), or
it raises an exception. -/
inductive ReplicateOutcome where
  | returns (output : Option String)
  | raises (msg : String)
deriving Repr, DecidableEq

/-- Outcome of the secondary HTTP fetch of the generated image
(`session.get(url)` + `response.read()` in `fetch_image_bytes`): the body
bytes, an `aiohttp.ClientError` (which `fetch_image_bytes` catches), or some
other raised exception (which escapes `fetch_image_bytes`). -/
inductive FetchOutcome where
  | returns (body : List Nat)
  | clientError (msg : String)
  | raises (msg : String)
deriving Repr, DecidableEq

/-- Behaviour of the external services during one batch: what
`replicate.run` does on each item's request, and what the HTTP fetch of each
URL does.  Quantifying theorems over `ServiceBehavior` quantifies over every
possible service behaviour, including per-item exceptions. -/
structure ServiceBehavior where
  replicate : MenuItem → ReplicateOutcome
  fetch : String → FetchOutcome

/-- Python exceptions that can arise inside `generate_image_async`'s `try`
block (`imaging.py:28-77`): the `ValueError` raised for a missing token, an
exception raised by the generation call, or an exception escaping the fetch. -/
inductive PyExn where
  | valueError (msg : String)
  | serviceError (msg : String)
  | fetchError (msg : String)
deriving Repr, DecidableEq

/-- An external (network) call performed by the pipeline; used to state
which requests are actually issued. -/
inductive ExtCall where
  | replicateRun (item : MenuItem)
  | httpGet (url : String)
deriving Repr, DecidableEq

/-- `fetch_image_bytes` (`imaging.py:8-16`): returns the bytes, or `None`
after catching an `aiohttp.ClientError`; any other exception escapes. -/
def fetch_image_bytes (beh : ServiceBehavior) (url : String) :
    Except PyExn (Option (List Nat)) :=
  match beh.fetch url with
  | .returns b => .ok (some b)
  | .clientError _ => .ok none
  | .raises m => .error (.fetchError m)

/-- The body of `generate_image_async`'s `try` block (`imaging.py:28-77`),
before the blanket `except Exception` handler: the token check (which raises
`ValueError` when the token is falsy), the empty-prompt early `return None`,
the `replicate.run` call, the output truthiness check, and the secondary
byte fetch.  Also returns the external calls performed. -/
def generate_image_body (env : ImagingEnv) (beh : ServiceBehavior) (item : MenuItem) :
    Except PyExn (Option GeneratedItem) × List ExtCall :=
  if truthyStr env.replicate_api_token = false then
    (.error (.valueError "Replicate API Token not found. Please set the REPLICATE_API_TOKEN environment variable."), [])
  else if item.prompt.getD "" = "" then
    (.ok none, [])
  else
    match beh.replicate item with
    | .raises m => (.error (.serviceError m), [.replicateRun item])
    | .returns output =>
      if truthyStr output = false then
        (.ok none, [.replicateRun item])
      else
        let url := output.getD ""
        match fetch_image_bytes beh url with
        | .error e => (.error e, [.replicateRun item, .httpGet url])
        | .ok none => (.ok none, [.replicateRun item, .httpGet url])
        | .ok (some b) =>
          if b.isEmpty then
            (.ok none, [.replicateRun item, .httpGet url])
          else
            (.ok (some ⟨item, b, url⟩), [.replicateRun item, .httpGet url])

/-- `generate_image_async` (`imaging.py:18-81`): the `try` body wrapped in
the catch-all `except Exception` handler, which converts every raised
exception into the ordinary failure result `None`. -/
def generate_image_async (env : ImagingEnv) (beh : ServiceBehavior) (item : MenuItem) :
    Option GeneratedItem × List ExtCall :=
  match generate_image_body env beh item with
  | (.ok v, cs) => (v, cs)
  | (.error _, cs) => (none, cs)

/-- One entry of the list `asyncio.gather(*tasks, return_exceptions=True)`
returns: either a captured exception object or a task's return value. -/
inductive GatherEntry where
  | exn (msg : String)
  | val (r : Option GeneratedItem)
deriving Repr, DecidableEq

/-- The `results` list of `generate_images_for_menu` (`imaging.py:99-102`):
`asyncio.gather` returns one entry per task, in task-submission (= input)
order.  `generate_image_async` catches every exception itself, so each entry
is a returned value. -/
def gatherResults (env : ImagingEnv) (beh : ServiceBehavior) (items : List MenuItem) :
    List GatherEntry :=
  items.map (fun it => GatherEntry.val (generate_image_async env beh it).1)

/-- The collection loop of `generate_images_for_menu` (`imaging.py:105-112`):
skip entries that are exceptions or `None`, append successes in order. -/
def collectSuccesses : List GatherEntry → List GeneratedItem
  | [] => []
  | GatherEntry.exn _ :: rest => collectSuccesses rest
  | GatherEntry.val none :: rest => collectSuccesses rest
  | GatherEntry.val (some r) :: rest => r :: collectSuccesses rest

/-- `generate_images_for_menu` (`imaging.py:83-115`): empty input returns
`[]` immediately; otherwise gather all per-item results and keep the
successful ones. -/
def generate_images_for_menu (env : ImagingEnv) (beh : ServiceBehavior)
    (items : List MenuItem) : List GeneratedItem :=
  if items.isEmpty then []
  else collectSuccesses (gatherResults env beh items)

/-- The external calls performed by one `generate_images_for_menu`
invocation (instrumentation of the same control flow). -/
def batchCalls (env : ImagingEnv) (beh : ServiceBehavior) (items : List MenuItem) :
    List ExtCall :=
  if items.isEmpty then []
  else (items.map (fun it => (generate_image_async env beh it).2)).flatten

/-- The per-item attempt of `generate_images_for_menu` succeeded. -/
def attemptSucceeds (env : ImagingEnv) (beh : ServiceBehavior) (item : MenuItem) : Bool :=
  ((generate_image_async env beh item).1).isSome

/-- The issue string `f"Item {i}: Missing name"` (`app.py:247`). -/
def issueMissingName (i : Nat) : String :=
  "Item " ++ toString i ++ ": Missing name"

/-- The issue string `f"Item {i} ({item['name']}): Missing image prompt"`
(`app.py:249`). -/
def issueMissingPrompt (i : Nat) (it : MenuItem) : String :=
  "Item " ++ toString i ++ " (" ++ it.name.getD "" ++ "): Missing image prompt"

/-- The partition loop of `validate_menu_items` (`app.py:245-251`):
`for i, item in enumerate(menu_items, 1)`, an item with a blank (stripped)
name yields a missing-name issue, an item with a name but a blank prompt
yields a missing-prompt issue, and the remaining items are collected as
`valid_items`, all in input order.  The first argument is the 1-based
position of the head of the list. -/
def validateLoop : Nat → List MenuItem → List MenuItem × List String
  | _, [] => ([], [])
  | i, it :: rest =>
    let tail := validateLoop (i + 1) rest
    if pyStrip (it.name.getD "") = "" then
      (tail.1, issueMissingName i :: tail.2)
    else if pyStrip (it.prompt.getD "") = "" then
      (tail.1, issueMissingPrompt i it :: tail.2)
    else
      (it :: tail.1, tail.2)

/-- `validate_menu_items` (`app.py:236-259`): returns only the flag and the
message; the computed `valid_items` partition is *not* returned to the
caller. -/
def validate_menu_items (items : List MenuItem) : Bool × String :=
  if items.isEmpty then
    (false, "No menu items were extracted. Please try a clearer image or check your text format.")
  else
    let p := validateLoop 1 items
    if p.1.isEmpty then
      (false, "No valid menu items found. Issues: " ++ String.intercalate "; " p.2)
    else
      (true, "Successfully extracted " ++ toString p.1.length ++ " valid menu items!")

/-- The list of items `process_menu` (`app.py:202-223`) hands to the
generation pipeline: when validation reports success it calls
`generate_images_for_menu(menu_items, ...)` on the *original* `menu_items`
list (line 223); when validation fails it returns without generating. -/
def process_menu_generation_input (items : List MenuItem) : List MenuItem :=
  if (validate_menu_items items).1 then items else []

/-- Environment seen by `vision.py`: `os.getenv('GOOGLE_API_KEY')`. -/
structure VisionEnv where
  google_api_key : Option String
deriving Repr, DecidableEq

/-- A JSON object, modelled by the list of its keys — the embedded code
inspects parsed elements only through `field in item` membership tests
(`vision.py:109-112`). -/
structure JsonObj where
  keys : List String
deriving Repr, DecidableEq

/-- A parsed JSON document: a JSON array of objects, or any other JSON
value (`isinstance(menu_items, list)` fails). -/
inductive JsonValue where
  | arr (items : List JsonObj)
  | notArr
deriving Repr, DecidableEq

/-- Outcome of the `model.generate_content(...)` call: the response text,
or a raised exception. -/
inductive ModelResponse where
  | text (s : String)
  | raises (msg : String)
deriving Repr, DecidableEq

/-- Behaviour of the extraction service and of `json.loads`: the model's
response and the (abstract, standard-library) JSON parser, where `none`
models a `json.JSONDecodeError`. -/
structure VisionBehavior where
  respond : ModelResponse
  parse : String → Option JsonValue

/-- Exceptions arising inside the extraction functions' outer `try` block. -/
inductive VisionExn where
  | jsonDecodeError (msg : String)
  | valueError (msg : String)
  | serviceError (msg : String)
deriving Repr, DecidableEq

/-- `clean_json_response` (`vision.py:51-70`): strip, remove a leading
```` ```json ```` or ```` ``` ```` fence, remove a trailing ```` ``` ````
fence, strip again. -/
def clean_json_response (response_text : String) : String :=
  let cleaned := pyStrip response_text
  let cleaned :=
    if pyStartsWith cleaned "```json" then pyDrop cleaned 7
    else if pyStartsWith cleaned "```" then pyDrop cleaned 3
    else cleaned
  let cleaned := if pyEndsWith cleaned "```" then pyDropRight cleaned 3 else cleaned
  pyStrip cleaned

/-- `required_fields = ['name', 'description', 'price', 'prompt']`
(`vision.py:110`). -/
def required_fields : List String := ["name", "description", "price", "prompt"]

/-- `all(field in item for field in required_fields)` (`vision.py:111`). -/
def hasAllRequired (o : JsonObj) : Bool :=
  required_fields.all (fun f => o.keys.contains f)

/-- The inner parsing block of the extraction functions
(`vision.py:100-114`), before any handler: `json.loads` on the cleaned
text (raising `json.JSONDecodeError` on invalid JSON), the array check
(raising `ValueError`), and the required-fields loop (raising `ValueError`
at the first deficient element). -/
def parseMenuBody (parse : String → Option JsonValue) (text : String) :
    Except VisionExn (List JsonObj) :=
  match parse (clean_json_response text) with
  | none => .error (.jsonDecodeError "Failed to parse JSON response")
  | some JsonValue.notArr => .error (.valueError "Response is not a JSON array")
  | some (JsonValue.arr items) =>
    if items.all hasAllRequired then .ok items
    else .error (.valueError "Missing required fields in menu item")

/-- The inner `except json.JSONDecodeError` handler (`vision.py:116-120`):
it catches *only* the decode error (returning `[]`); the two `ValueError`s
raised in the same `try` block escape to the outer handler. -/
def parseMenuCaught (parse : String → Option JsonValue) (text : String) :
    Except VisionExn (List JsonObj) :=
  match parseMenuBody parse text with
  | .error (.jsonDecodeError _) => .ok []
  | r => r

/-- The body of `extract_menu_items_from_image`'s outer `try` block
(`vision.py:82-120`): the API-key check (raising `ValueError` when the key
is falsy), the model call, and the parsing block. -/
def extractImageBody (env : VisionEnv) (beh : VisionBehavior) :
    Except VisionExn (List JsonObj) :=
  if truthyStr env.google_api_key = false then
    .error (.valueError "Google API Key not found. Please set the GOOGLE_API_KEY environment variable.")
  else
    match beh.respond with
    | .raises m => .error (.serviceError m)
    | .text t => parseMenuCaught beh.parse t

/-- `extract_menu_items_from_image` (`vision.py:72-124`): the body wrapped
in the outer `except Exception` handler, which returns `[]`. -/
def extract_menu_items_from_image (env : VisionEnv) (beh : VisionBehavior) :
    List JsonObj :=
  match extractImageBody env beh with
  | .ok v => v
  | .error _ => []

/-- The body of `extract_menu_items_from_text`'s outer `try` block
(`vision.py:136-174`); the only difference from the image variant is how
the request handed to the service is built, which is absorbed into the
behaviour's `respond`. -/
def extractTextBody (env : VisionEnv) (beh : VisionBehavior) :
    Except VisionExn (List JsonObj) :=
  if truthyStr env.google_api_key = false then
    .error (.valueError "Google API Key not found. Please set the GOOGLE_API_KEY environment variable.")
  else
    match beh.respond with
    | .raises m => .error (.serviceError m)
    | .text t => parseMenuCaught beh.parse t

/-- `extract_menu_items_from_text` (`vision.py:126-183`): the body wrapped
in the outer `except Exception` handler, which returns `[]`. -/
def extract_menu_items_from_text (env : VisionEnv) (beh : VisionBehavior) :
    List JsonObj :=
  match extractTextBody env beh with
  | .ok v => v
  | .error _ => []

/-- The worker count of the executor `generate_images_for_menu` actually
runs its blocking `replicate.run` calls on: `imaging.py:58` passes `None`
to `loop.run_in_executor`, selecting asyncio's default
`concurrent.futures.ThreadPoolExecutor`, whose default `max_workers` is
`min(32, os.cpu_count() + 4)` (CPython documentation).  No semaphore or
other cap appears anywhere in `generate_images_for_menu`
(`imaging.py:96-102`): all tasks are created and gathered at once. -/
def defaultMaxWorkers (cpu : Nat) : Nat := min 32 (cpu + 4)

/-- Scheduler state for one batch: how many of the submitted generation
jobs are not yet started, currently executing `replicate.run` (in-flight
requests), and finished. -/
structure ExecState where
  pending : Nat
  running : Nat
  done : Nat
deriving Repr, DecidableEq

/-- One scheduler transition of the default executor running the batch's
jobs: a pending job may start whenever fewer than `cap` workers are busy
(`generate_images_for_menu` itself imposes no further gating — every job is
submitted up front), and a running job may finish at any time. -/
inductive ExecStep (cap : Nat) : ExecState → ExecState → Prop where
  | start (p r d : Nat) : 0 < p → r < cap → ExecStep cap ⟨p, r, d⟩ ⟨p - 1, r + 1, d⟩
  | finish (p r d : Nat) : 0 < r → ExecStep cap ⟨p, r, d⟩ ⟨p, r - 1, d + 1⟩

/-- Reachability of scheduler states from an initial state. -/
inductive ExecReachable (cap : Nat) (init : ExecState) : ExecState → Prop where
  | refl : ExecReachable cap init init
  | step (s t : ExecState) : ExecReachable cap init s → ExecStep cap s t →
      ExecReachable cap init t

/-- One invocation of the progress sink: the arguments `(completed, total,
item_name)` that `process_menu`'s `on_progress` receives (`app.py:219-221`). -/
structure ProgressCall where
  completed : Nat
  total : Nat
  label : String
deriving Repr, DecidableEq

/-- The display name the pipeline reports: `menu_item.get('name', 'Unknown')`. -/
def displayName (it : MenuItem) : String := it.name.getD "Unknown"

/-- Modelled from the spec: the progress-reporting loop of the whole-batch
operation.  The `generate_images_for_menu` variant that accepts the
`on_progress` keyword which `src/app.py:223` passes is not among the
provided sources (the provided `src/src/imaging.py` variant has no progress
parameter), so this follows spec §4.2/§6: after every individual attempt
completes (success or failure), the sink is invoked exactly once with the
running completed-count, the fixed total, and the item's display name.
Arguments: the fixed per-item outcome, the fixed `total`, the number of
attempts already completed, and the remaining items in the (nondeterministic)
order their attempts complete. -/
def runBatchWithProgress (outcome : MenuItem → Option GeneratedItem) (total : Nat) :
    Nat → List MenuItem → List GeneratedItem × List ProgressCall
  | _, [] => ([], [])
  | c, it :: rest =>
    let tail := runBatchWithProgress outcome total (c + 1) rest
    (match outcome it with
      | some g => g :: tail.1
      | none => tail.1,
     ⟨c + 1, total, displayName it⟩ :: tail.2)

/-- Modelled from the spec: the whole-batch operation `generate_all(items,
progress_sink)` of spec §4.2 with its progress instrumentation.  Empty input
returns empty output with no sink invocation; otherwise the attempts
complete in some order `completionOrder` (a permutation of `items`), and the
sink is called once after each completion with the running count and the
fixed total `len(items)`. -/
def generate_all (outcome : MenuItem → Option GeneratedItem)
    (items completionOrder : List MenuItem) : List GeneratedItem × List ProgressCall :=
  if items.isEmpty then ([], [])
  else runBatchWithProgress outcome items.length 0 completionOrder

lemma collectSuccesses_gather (env : ImagingEnv) (beh : ServiceBehavior) :
    ∀ items : List MenuItem,
      collectSuccesses (gatherResults env beh items) =
        items.filterMap (fun it => (generate_image_async env beh it).1) := by
  intro items
  induction items with
  | nil => rfl
  | cons it rest ih =>
    simp only [gatherResults, List.map_cons, List.filterMap_cons] at *
    cases h : (generate_image_async env beh it).1 with
    | none => simpa [collectSuccesses, h] using ih
    | some g => simpa [collectSuccesses, h] using ih

lemma generate_images_eq_filterMap (env : ImagingEnv) (beh : ServiceBehavior)
    (items : List MenuItem) :
    generate_images_for_menu env beh items =
      items.filterMap (fun it => (generate_image_async env beh it).1) := by
  cases items with
  | nil => rfl
  | cons it rest =>
    simpa [generate_images_for_menu] using collectSuccesses_gather env beh (it :: rest)

lemma length_filterMap_eq_iff {α β : Type} (f : α → Option β) :
    ∀ l : List α, ((l.filterMap f).length = l.length ↔ ∀ a ∈ l, (f a).isSome) := by
  intro l
  induction l with
  | nil => simp
  | cons a t ih =>
    rw [List.filterMap_cons]
    cases h : f a with
    | none =>
      simp only [List.length_cons, h]
      constructor
      · intro hlen
        have hle := List.length_filterMap_le f t
        omega
      · intro hall
        have := hall a (by simp)
        simp [h] at this
    | some b =>
      simp only [List.length_cons, h]
      constructor
      · intro hlen a' ha'
        rcases List.mem_cons.mp ha' with rfl | ha'
        · simp [h]
        · exact (ih.mp (by omega)) a' ha'
      · intro hall
        have : (t.filterMap f).length = t.length :=
          ih.mpr (fun a' ha' => hall a' (List.mem_cons_of_mem a ha'))
        omega

lemma body_base (env : ImagingEnv) (beh : ServiceBehavior) (it : MenuItem)
    (g : GeneratedItem) (h : (generate_image_body env beh it).1 = Except.ok (some g)) :
    g.base = it := by
  unfold generate_image_body at h
  rcases hR : beh.replicate it with output | m <;> rw [hR] at h
  · rcases hF : fetch_image_bytes beh (output.getD "") with e | ob
    · repeat' split at h
      all_goals simp_all
    · rcases ob with _ | b
      · repeat' split at h
        all_goals simp_all
      · repeat' split at h
        all_goals try simp_all
        by_cases hb : b = []
        · simp [hb] at h
        · simp [hb] at h
          simp [← h]
  · repeat' split at h
    all_goals simp_all

lemma base_of_success (env : ImagingEnv) (beh : ServiceBehavior) (it : MenuItem)
    (g : GeneratedItem) (h : (generate_image_async env beh it).1 = some g) :
    g.base = it := by
  unfold generate_image_async at h
  revert h
  rcases hq : generate_image_body env beh it with ⟨r, cs⟩
  cases r with
  | ok v =>
    intro h
    simp at h
    exact body_base env beh it g (by rw [hq, h])
  | error e => intro h; simp at h

lemma execReachable_running_le (cap n : Nat) :
    ∀ s : ExecState, ExecReachable cap ⟨n, 0, 0⟩ s → s.running ≤ cap := by
  intro s h
  induction h with
  | refl => simp
  | step s' t hr hstep ih =>
    cases hstep with
    | start p r d hp hc => simp at ih ⊢; omega
    | finish p r d hr0 => simp at ih ⊢; omega

lemma execReach_six : ExecReachable 12 ⟨20, 0, 0⟩ ⟨14, 6, 0⟩ := by
  have h0 : ExecReachable 12 ⟨20, 0, 0⟩ ⟨20, 0, 0⟩ := ExecReachable.refl
  have h1 : ExecReachable 12 ⟨20, 0, 0⟩ ⟨19, 1, 0⟩ :=
    ExecReachable.step _ _ h0 (ExecStep.start 20 0 0 (by omega) (by omega))
  have h2 : ExecReachable 12 ⟨20, 0, 0⟩ ⟨18, 2, 0⟩ :=
    ExecReachable.step _ _ h1 (ExecStep.start 19 1 0 (by omega) (by omega))
  have h3 : ExecReachable 12 ⟨20, 0, 0⟩ ⟨17, 3, 0⟩ :=
    ExecReachable.step _ _ h2 (ExecStep.start 18 2 0 (by omega) (by omega))
  have h4 : ExecReachable 12 ⟨20, 0, 0⟩ ⟨16, 4, 0⟩ :=
    ExecReachable.step _ _ h3 (ExecStep.start 17 3 0 (by omega) (by omega))
  have h5 : ExecReachable 12 ⟨20, 0, 0⟩ ⟨15, 5, 0⟩ :=
    ExecReachable.step _ _ h4 (ExecStep.start 16 4 0 (by omega) (by omega))
  exact ExecReachable.step _ _ h5 (ExecStep.start 15 5 0 (by omega) (by omega))

lemma runBatch_trace_length (f : MenuItem → Option GeneratedItem) (total : Nat) :
    ∀ (l : List MenuItem) (c : Nat),
      ((runBatchWithProgress f total c l).2).length = l.length := by
  intro l
  induction l with
  | nil => intro c; rfl
  | cons it rest ih => intro c; simp [runBatchWithProgress, ih]

lemma runBatch_trace_get (f : MenuItem → Option GeneratedItem) (total : Nat) :
    ∀ (l : List MenuItem) (c k : Nat) (h : k < ((runBatchWithProgress f total c l).2).length),
      (((runBatchWithProgress f total c l).2).get ⟨k, h⟩).completed = c + k + 1 ∧
        (((runBatchWithProgress f total c l).2).get ⟨k, h⟩).total = total := by
  intro l
  induction l with
  | nil => intro c k h; simp [runBatchWithProgress] at h
  | cons it rest ih =>
    intro c k h
    cases k with
    | zero => simp [runBatchWithProgress]
    | succ k' =>
      have h' : k' < ((runBatchWithProgress f total (c + 1) rest).2).length := by
        have := h
        simp [runBatchWithProgress] at this
        simpa using this
      have hk := ih (c + 1) k' h'
      simp only [runBatchWithProgress, List.get_cons_succ] at *
      exact ⟨by rw [hk.1]; omega, hk.2⟩

/-- Concrete fixture: a fully valid item. -/
def soupItem : MenuItem := ⟨some "Soup", none, none, none, none, some "a bowl of soup"⟩

/-- Concrete fixture: an item whose `name` is the empty string. -/
def blankNameItem : MenuItem := ⟨some "", none, none, none, none, some "x"⟩

/-- Concrete fixture: an item with no `name` key at all. -/
def noNameItem : MenuItem := ⟨none, none, none, none, none, some "y"⟩

/-- Concrete fixture: an environment holding a Replicate token. -/
def envWithToken : ImagingEnv := ⟨some "token"⟩

/-- Concrete fixture: an environment without a Replicate token. -/
def envNoToken : ImagingEnv := ⟨none⟩

/-- Concrete fixture: a service behaviour in which every generation request
returns a URL and every fetch returns bytes. -/
def behAllOk : ServiceBehavior :=
  ⟨fun _ => ReplicateOutcome.returns (some "https://img"), fun _ => FetchOutcome.returns [1, 2, 3]⟩

/-- C3.  For every environment, service behaviour and input sequence, the
sequence returned by `generate_images_for_menu` has length at most the
length of the input, with equality exactly when every per-item generation
attempt succeeds. -/
theorem output_length_le_input (env : ImagingEnv) (beh : ServiceBehavior)
    (items : List MenuItem) :
    (generate_images_for_menu env beh items).length ≤ items.length ∧
      ((generate_images_for_menu env beh items).length = items.length ↔
        ∀ it ∈ items, attemptSucceeds env beh it = true) := by
  rw [generate_images_eq_filterMap]
  refine ⟨List.length_filterMap_le _ _, ?_⟩
  rw [length_filterMap_eq_iff]
  unfold attemptSucceeds
  simp

/-- C9.  The specification-side description of the output: the subsequence of
items whose attempt succeeds, kept in input order. -/
def successesInInputOrder (f : MenuItem → Option GeneratedItem) :
    List MenuItem → List GeneratedItem
  | [] => []
  | it :: rest =>
    match f it with
    | some g => g :: successesInInputOrder f rest
    | none => successesInInputOrder f rest

/-- C9.  The output of `generate_images_for_menu` is exactly the subsequence
of successful items in input order: `asyncio.gather` returns results in
task-submission order, and the collection loop appends successes in that
order, so the output never depends on completion order. -/
theorem output_is_ordered_successes (env : ImagingEnv) (beh : ServiceBehavior)
    (items : List MenuItem) :
    generate_images_for_menu env beh items =
      successesInInputOrder (fun it => (generate_image_async env beh it).1) items := by
  rw [generate_images_eq_filterMap]
  induction items with
  | nil => rfl
  | cons it rest ih =>
    cases h : (generate_image_async env beh it).1 <;>
      simp [successesInInputOrder, List.filterMap_cons, h, ih]

/-- C6.  No per-item error propagates past the pipeline boundary: every
exception raised inside a per-item attempt is caught there and converted to
that item's failure outcome `None`; no gathered entry is an exception; and
the whole-batch operation runs to completion, returning exactly the list of
per-item successes. -/
theorem errors_stay_at_item_boundary (env : ImagingEnv) (beh : ServiceBehavior)
    (items : List MenuItem) :
    (∀ it ∈ items, ∀ e : PyExn, (generate_image_body env beh it).1 = Except.error e →
        (generate_image_async env beh it).1 = none) ∧
      (∀ entry ∈ gatherResults env beh items, ∀ m : String, entry ≠ GatherEntry.exn m) ∧
      generate_images_for_menu env beh items =
        items.filterMap (fun it => (generate_image_async env beh it).1) := by
  refine ⟨?_, ?_, generate_images_eq_filterMap env beh items⟩
  · intro it _ e he
    unfold generate_image_async
    rcases hq : generate_image_body env beh it with ⟨r, cs⟩
    rw [hq] at he
    simp at he
    rw [he]
  · intro entry hentry m
    rcases List.mem_map.mp hentry with ⟨it, _, hval⟩
    rw [← hval]
    simp

/-- C6 witness: with the token absent, the per-item body raises a
`ValueError`, and the pipeline converts it to the per-item failure `None`. -/
theorem errors_stay_at_item_boundary_witness :
    (generate_image_async envNoToken behAllOk soupItem).1 = none :=
  (errors_stay_at_item_boundary envNoToken behAllOk [soupItem]).1 soupItem (by simp)
    (PyExn.valueError "Replicate API Token not found. Please set the REPLICATE_API_TOKEN environment variable.")
    rfl

/-- C7.  Every output item of `generate_images_for_menu` is a copy of some
input item: its `name`, `description`, `price`, `tags` and `ingredients`
fields are identical to that input item's, the only additions being the
`image_bytes` field and the `image_url` source reference (the `GeneratedItem`
structure carries exactly these two fields beyond the copied base). -/
theorem output_preserves_fields (env : ImagingEnv) (beh : ServiceBehavior)
    (items : List MenuItem) (g : GeneratedItem)
    (h : g ∈ generate_images_for_menu env beh items) :
    ∃ it ∈ items, (generate_image_async env beh it).1 = some g ∧
      g.base = it ∧ g.base.name = it.name ∧ g.base.description = it.description ∧
      g.base.price = it.price ∧ g.base.tags = it.tags ∧
      g.base.ingredients = it.ingredients := by
  rw [generate_images_eq_filterMap] at h
  rcases List.mem_filterMap.mp h with ⟨it, hit, hsome⟩
  have hb := base_of_success env beh it g hsome
  exact ⟨it, hit, hsome, hb, by rw [hb], by rw [hb], by rw [hb], by rw [hb], by rw [hb]⟩

/-- C7 witness: a concrete successful batch, whose single output item
preserves all base fields of `soupItem`. -/
theorem output_preserves_fields_witness :
    ∃ it ∈ [soupItem],
      (generate_image_async envWithToken behAllOk it).1 =
          some ⟨soupItem, [1, 2, 3], "https://img"⟩ ∧
        (⟨soupItem, [1, 2, 3], "https://img"⟩ : GeneratedItem).base = it ∧
        (⟨soupItem, [1, 2, 3], "https://img"⟩ : GeneratedItem).base.name = it.name ∧
        (⟨soupItem, [1, 2, 3], "https://img"⟩ : GeneratedItem).base.description = it.description ∧
        (⟨soupItem, [1, 2, 3], "https://img"⟩ : GeneratedItem).base.price = it.price ∧
        (⟨soupItem, [1, 2, 3], "https://img"⟩ : GeneratedItem).base.tags = it.tags ∧
        (⟨soupItem, [1, 2, 3], "https://img"⟩ : GeneratedItem).base.ingredients = it.ingredients :=
  output_preserves_fields envWithToken behAllOk [soupItem]
    ⟨soupItem, [1, 2, 3], "https://img"⟩ (by decide)

lemma noToken_item (env : ImagingEnv) (beh : ServiceBehavior) (it : MenuItem)
    (h : truthyStr env.replicate_api_token = false) :
    generate_image_async env beh it = (none, []) := by
  simp [generate_image_async, generate_image_body, h]

/-- C4 counterexample: with the credential absent, the missing token is not
surfaced as a configuration error that aborts the invocation — the per-item
body does raise a `ValueError`, but the per-item handler converts it into the
ordinary failure `None`, and the whole-batch invocation runs to completion,
returning the empty list. -/
theorem missing_token_not_eager_counterexample :
    (generate_image_body envNoToken behAllOk soupItem).1 =
        Except.error (PyExn.valueError "Replicate API Token not found. Please set the REPLICATE_API_TOKEN environment variable.") ∧
      (generate_image_async envNoToken behAllOk soupItem).1 = none ∧
      generate_images_for_menu envNoToken behAllOk [soupItem] = [] ∧
      batchCalls envNoToken behAllOk [soupItem] = [] :=
  ⟨rfl, rfl, rfl, rfl⟩

/-- C4 amended: when the image-generation credential is absent, each
per-item attempt detects the absence before issuing any network call (the
batch performs no external calls at all), but the error is caught by the
per-item handler and surfaced as that item's ordinary generation failure;
the batch is not aborted and returns the empty list. -/
theorem missing_token_per_item_failure (env : ImagingEnv) (beh : ServiceBehavior)
    (items : List MenuItem) (h : truthyStr env.replicate_api_token = false) :
    generate_images_for_menu env beh items = [] ∧
      batchCalls env beh items = [] ∧
      ∀ it ∈ items, (generate_image_async env beh it).1 = none := by
  refine ⟨?_, ?_, ?_⟩
  · rw [generate_images_eq_filterMap]
    induction items with
    | nil => rfl
    | cons it rest ih => simp [List.filterMap_cons, noToken_item env beh it h, ih]
  · have hflat : ∀ l : List MenuItem,
        ((l.map (fun it => (generate_image_async env beh it).2)).flatten = ([] : List ExtCall)) := by
      intro l
      induction l with
      | nil => rfl
      | cons it rest ih => simp [noToken_item env beh it h, ih]
    cases items with
    | nil => rfl
    | cons a l => simpa [batchCalls] using hflat (a :: l)
  · intro it _
    rw [noToken_item env beh it h]

/-- C4 witness: the amended theorem applied at a concrete credential-less
environment. -/
theorem missing_token_per_item_failure_witness :
    truthyStr envNoToken.replicate_api_token = false ∧
      generate_images_for_menu envNoToken behAllOk [soupItem] = [] ∧
      batchCalls envNoToken behAllOk [soupItem] = [] :=
  ⟨by decide, (missing_token_per_item_failure envNoToken behAllOk [soupItem] (by decide)).1,
    (missing_token_per_item_failure envNoToken behAllOk [soupItem] (by decide)).2.1⟩

/-- C2 counterexample: the dispatch of `generate_images_for_menu` submits
every blocking `replicate.run` job to the default executor at once; on a
machine with 8 CPUs the executor runs up to `min(32, 8+4) = 12` jobs
simultaneously, and a state with 6 concurrent in-flight requests — more
than the claimed cap of 5 — is reachable when dispatching 20 items. -/
theorem concurrency_exceeds_five_counterexample :
    defaultMaxWorkers 8 = 12 ∧
      ExecReachable (defaultMaxWorkers 8) ⟨20, 0, 0⟩ ⟨14, 6, 0⟩ ∧
      ¬((⟨14, 6, 0⟩ : ExecState).running ≤ 5) := by
  have h : defaultMaxWorkers 8 = 12 := by decide
  exact ⟨h, by rw [h]; exact execReach_six, by decide⟩

/-- C2 amended: the concurrency of in-flight generation requests is bounded,
but by the default executor's worker count `min(32, cpu_count + 4)` — a
machine-dependent constant that is independent of the input size and equals
the claimed 5 only on a single-CPU machine — not by a fixed cap of 5. -/
theorem concurrency_bounded_by_default_executor :
    (∀ (cpu n : Nat) (s : ExecState),
        ExecReachable (defaultMaxWorkers cpu) ⟨n, 0, 0⟩ s →
          s.running ≤ defaultMaxWorkers cpu) ∧
      defaultMaxWorkers 1 = 5 :=
  ⟨fun cpu n s h => execReachable_running_le (defaultMaxWorkers cpu) n s h, by decide⟩

/-- C2 witness: the amended bound applied to a concrete reachable state of a
20-item batch on an 8-CPU machine. -/
theorem concurrency_bounded_by_default_executor_witness :
    (⟨14, 6, 0⟩ : ExecState).running ≤ defaultMaxWorkers 8 :=
  concurrency_bounded_by_default_executor.1 8 20 ⟨14, 6, 0⟩ (by
    have h : defaultMaxWorkers 8 = 12 := by decide
    rw [h]
    exact execReach_six)

/-- C1 (modelled from the spec, see `generate_all`): for every non-empty
batch of `n` valid items, the progress sink is invoked exactly `n` times —
once after each individual attempt completes, whatever its outcome and in
whatever order the attempts complete — with the completed count strictly
increasing from 1 to `n` (the `k`-th call carries `k + 1`) and the total
argument constant at `n`. -/
theorem progress_sink_exact_trace (outcome : MenuItem → Option GeneratedItem)
    (items order : List MenuItem) (hperm : List.Perm order items) (hne : items ≠ []) :
    ((generate_all outcome items order).2).length = items.length ∧
      ∀ (k : Nat) (h : k < ((generate_all outcome items order).2).length),
        (((generate_all outcome items order).2).get ⟨k, h⟩).completed = k + 1 ∧
          (((generate_all outcome items order).2).get ⟨k, h⟩).total = items.length := by
  have hlen : order.length = items.length := hperm.length_eq
  have hne' : items.isEmpty = false := by
    cases items with
    | nil => simp at hne
    | cons a l => rfl
  have hgen : generate_all outcome items order =
      runBatchWithProgress outcome items.length 0 order := by
    unfold generate_all
    simp [hne']
  rw [hgen]
  constructor
  · rw [runBatch_trace_length]
    exact hlen
  · intro k h
    have hk := runBatch_trace_get outcome items.length order 0 k h
    exact ⟨by rw [hk.1]; omega, hk.2⟩

/-- C1 witness: a concrete two-item batch whose attempts complete in reverse
input order still produces a trace of exactly two sink invocations. -/
theorem progress_sink_exact_trace_witness :
    ((generate_all (fun _ => none) [soupItem, blankNameItem] [blankNameItem, soupItem]).2).length = 2 := by
  have h := (progress_sink_exact_trace (fun _ => none) [soupItem, blankNameItem]
    [blankNameItem, soupItem] (by decide) (by decide)).1
  simpa using h

/-- C5: at a concrete input containing an invalid item, the validator's
partition flags item 2 as invalid (missing name), yet `process_menu` hands
the full original list — invalid item included — to the generation
pipeline, which then issues a real generation request for the invalid item.
This contradicts both the claim and the code's own warning message, which
announces that it "will proceed with 1 valid items". -/
theorem invalid_item_reaches_generation :
    validateLoop 1 [soupItem, blankNameItem] = ([soupItem], [issueMissingName 2]) ∧
      (validate_menu_items [soupItem, blankNameItem]).1 = true ∧
      process_menu_generation_input [soupItem, blankNameItem] = [soupItem, blankNameItem] ∧
      ExtCall.replicateRun blankNameItem ∈ batchCalls envWithToken behAllOk [soupItem, blankNameItem] := by
  refine ⟨by decide, by decide, by decide, by decide⟩

/-- C8: on the three-item input
`[{name Soup, prompt "a bowl of soup"}, {name "", prompt "x"}, {prompt "y"}]`
the validator's partition keeps exactly the one item named `Soup` and records
exactly two issues, at positions 2 and 3, each reporting a missing name; the
returned message accordingly counts one valid item. -/
theorem validator_three_item_example :
    validateLoop 1 [soupItem, blankNameItem, noNameItem] =
        ([soupItem], ["Item 2: Missing name", "Item 3: Missing name"]) ∧
      validate_menu_items [soupItem, blankNameItem, noNameItem] =
        (true, "Successfully extracted 1 valid menu items!") := by
  decide

/-- C10 hypothesis: the cleaned model response is not valid JSON, or is not
a JSON array, or contains an element lacking one of the four required keys. -/
def badParse (parse : String → Option JsonValue) (t : String) : Prop :=
  parse (clean_json_response t) = none ∨
    parse (clean_json_response t) = some JsonValue.notArr ∨
    ∃ items, parse (clean_json_response t) = some (JsonValue.arr items) ∧
      items.all hasAllRequired = false

/-- C10: extraction is all-or-nothing — whenever the cleaned response is not
valid JSON, is not a JSON array, or has an element missing a required key,
both extraction functions return the empty list (and, the embedding being a
total function into lists, no exception escapes them). -/
theorem extraction_all_or_nothing (env : VisionEnv) (beh : VisionBehavior) (t : String)
    (hresp : beh.respond = ModelResponse.text t) (hbad : badParse beh.parse t) :
    extract_menu_items_from_image env beh = [] ∧
      extract_menu_items_from_text env beh = [] := by
  have hpc : ∀ v, parseMenuCaught beh.parse t = Except.ok v → v = [] := by
    intro v hv
    unfold parseMenuCaught parseMenuBody at hv
    rcases hbad with hb | hb | ⟨its, hb, hall⟩ <;> rw [hb] at hv <;> simp_all
  constructor
  · unfold extract_menu_items_from_image extractImageBody
    rw [hresp]
    by_cases hk : truthyStr env.google_api_key = false
    · simp [hk]
    · rcases hq : parseMenuCaught beh.parse t with e | v
      · simp [hk, hq]
      · simp [hk, hq, hpc v hq]
  · unfold extract_menu_items_from_text extractTextBody
    rw [hresp]
    by_cases hk : truthyStr env.google_api_key = false
    · simp [hk]
    · rcases hq : parseMenuCaught beh.parse t with e | v
      · simp [hk, hq]
      · simp [hk, hq, hpc v hq]

/-- Concrete fixture: an environment holding a Google API key. -/
def envWithKey : VisionEnv := ⟨some "gkey"⟩

/-- Concrete fixture: a behaviour whose response parses to a non-array JSON
value. -/
def behNotArr : VisionBehavior := ⟨ModelResponse.text "oops", fun _ => some JsonValue.notArr⟩

/-- C10 witness: a concrete non-array response makes the image extraction
return the empty list. -/
theorem extraction_all_or_nothing_witness :
    badParse behNotArr.parse "oops" ∧
      extract_menu_items_from_image envWithKey behNotArr = [] :=
  ⟨Or.inr (Or.inl rfl),
    (extraction_all_or_nothing envWithKey behNotArr "oops" rfl (Or.inr (Or.inl rfl))).1⟩

/-- C3 witness: the length bound applied to a concrete one-item batch. -/
theorem output_length_le_input_witness :
    (generate_images_for_menu envWithToken behAllOk [soupItem]).length ≤ 1 := by
  simpa using (output_length_le_input envWithToken behAllOk [soupItem]).1

/-- C9 witness: the order theorem applied to a concrete two-item batch. -/
theorem output_is_ordered_successes_witness :
    generate_images_for_menu envWithToken behAllOk [soupItem, blankNameItem] =
      successesInInputOrder
        (fun it => (generate_image_async envWithToken behAllOk it).1)
        [soupItem, blankNameItem] :=
  output_is_ordered_successes envWithToken behAllOk [soupItem, blankNameItem]
